import Mathlib

/-!
Verification of the CRM client slice (query-string builder, transport helpers,
domain service path construction, settings form flows, tag manager, create
contact modal, and list pagination) against its natural-language specification.

The definitions below are shallow embeddings of the TypeScript source:
`withQueryParams`, `handleRequestError`, `getJson`/`postJson`/`deleteJson`,
the list/search service functions (src/web/src/app/app/crm/crmService.ts),
`parseMultiLineValues`, `handleSaveCrmSettings`, `updateSettingField`
(the admin `SettingsForm`), `canCreateNew` / `handleCreateAndAddTag`
(the `TagManager`), the `CreateContactModal` submit handler and the
contacts/organizations list pages' `totalPages` computation.
-/

namespace CrmSpec

/-! ## JavaScript query values and URLSearchParams

`QueryValue` mirrors the TS union `string | number | boolean | null | undefined`
used by `withQueryParams`.  `jsString` is JavaScript `String(value)` on those
values; `isOmitted` is the guard `value === undefined || value === null ||
value === ""` from the source. -/

inductive QueryValue where
  | str (s : String)
  | num (n : Int)
  | boolean (b : Bool)
  | null
  | undefined
deriving DecidableEq, Repr

def QueryValue.jsString : QueryValue → String
  | .str s => s
  | .num n => toString n
  | .boolean b => if b then "true" else "false"
  | .null => "null"
  | .undefined => "undefined"

def QueryValue.isOmitted : QueryValue → Bool
  | .undefined => true
  | .null => true
  | .str s => s == ""
  | .num _ => false
  | .boolean _ => false

/-- A value of the record passed to `withQueryParams`: either a scalar
`QueryValue` or an array of them (`QueryValue | QueryValue[]`). -/
inductive ParamValue where
  | single (v : QueryValue)
  | array (vs : List QueryValue)
deriving DecidableEq, Repr

/-- UTF-8 bytes of a character, as used by the `application/x-www-form-urlencoded`
serializer of `URLSearchParams` when percent-encoding. -/
def utf8Bytes (c : Char) : List Nat :=
  let n := c.toNat
  if n < 0x80 then [n]
  else if n < 0x800 then [0xC0 + n / 0x40, 0x80 + n % 0x40]
  else if n < 0x10000 then
    [0xE0 + n / 0x1000, 0x80 + (n / 0x40) % 0x40, 0x80 + n % 0x40]
  else
    [0xF0 + n / 0x40000, 0x80 + (n / 0x1000) % 0x40, 0x80 + (n / 0x40) % 0x40,
      0x80 + n % 0x40]

def formHexDigit (n : Nat) : Char :=
  if n < 10 then Char.ofNat (48 + n) else Char.ofNat (55 + n)

/-- One character of the `application/x-www-form-urlencoded` serialization:
space becomes `+`, ASCII alphanumerics and `*-._` are kept, everything else is
percent-encoded byte by byte with uppercase hex. -/
def formEncodeChar (c : Char) : String :=
  if c = ' ' then "+"
  else if c.isAlphanum || c = '*' || c = '-' || c = '.' || c = '_' then
    String.singleton c
  else
    String.join ((utf8Bytes c).map (fun b =>
      "%" ++ String.singleton (formHexDigit (b / 16)) ++
        String.singleton (formHexDigit (b % 16))))

def formEncode (s : String) : String :=
  String.join (s.data.map formEncodeChar)

/-- The mutable `URLSearchParams` object: an ordered list of name/value pairs. -/
structure URLSearchParams where
  pairs : List (String × String)
deriving DecidableEq, Repr

def URLSearchParams.append (sp : URLSearchParams) (k v : String) : URLSearchParams :=
  { pairs := sp.pairs ++ [(k, v)] }

/-- `URLSearchParams.toString()`: form-url-encoded `k=v` pairs joined by `&`. -/
def URLSearchParams.toQueryString (sp : URLSearchParams) : String :=
  String.intercalate "&" (sp.pairs.map (fun p => formEncode p.1 ++ "=" ++ formEncode p.2))

/-- The body of the `Object.entries(params).forEach` loop of `withQueryParams`:
scalars equal to `undefined`/`null`/`""` are skipped, other scalars appended as
`String(value)`; for arrays each item is appended unless it is
`undefined`/`null`/`""`. -/
def appendParam (sp : URLSearchParams) (kv : String × ParamValue) : URLSearchParams :=
  match kv.2 with
  | .single v => if v.isOmitted then sp else sp.append kv.1 v.jsString
  | .array vs =>
    vs.foldl (fun acc item =>
      if item.isOmitted then acc else acc.append kv.1 item.jsString) sp

/-- The name/value pairs accumulated by `withQueryParams` for a parameter list. -/
def queryPairs (params : List (String × ParamValue)) : List (String × String) :=
  (params.foldl appendParam (URLSearchParams.mk [])).pairs

/-- `withQueryParams` from `crmService.ts`: build the search pairs, serialize,
and append `?` plus the query string when it is non-empty. -/
def withQueryParams (basePath : String) (params : List (String × ParamValue)) : String :=
  let search := params.foldl appendParam (URLSearchParams.mk [])
  let queryString := search.toQueryString
  if queryString = "" then basePath else basePath ++ "?" ++ queryString

/-- Specification-side description of the pairs one parameter contributes:
omitted scalars contribute nothing, kept scalars one pair, arrays one pair per
non-omitted element (repeated key). -/
def expandParam (kv : String × ParamValue) : List (String × String) :=
  match kv.2 with
  | .single v => if v.isOmitted then [] else [(kv.1, v.jsString)]
  | .array vs =>
    (vs.filter (fun item => !item.isOmitted)).map (fun item => (kv.1, item.jsString))

def expandParams : List (String × ParamValue) → List (String × String)
  | [] => []
  | kv :: rest => expandParam kv ++ expandParams rest

lemma foldl_append_array_pairs (k : String) (vs : List QueryValue) (sp : URLSearchParams) :
    (vs.foldl (fun acc item =>
        if item.isOmitted then acc else acc.append k item.jsString) sp).pairs =
      sp.pairs ++ (vs.filter (fun item => !item.isOmitted)).map (fun item => (k, item.jsString)) := by
  induction vs generalizing sp with
  | nil => simp
  | cons head tail ih =>
    by_cases h : head.isOmitted = true
    · simp only [List.foldl_cons, h, if_pos, List.filter_cons, Bool.not_true]
      simpa [h] using ih sp
    · have hh : head.isOmitted = false := by simpa using h
      have step := ih (sp.append k head.jsString)
      simp [hh, URLSearchParams.append] at step ⊢
      simp [step]

lemma appendParam_pairs (sp : URLSearchParams) (kv : String × ParamValue) :
    (appendParam sp kv).pairs = sp.pairs ++ expandParam kv := by
  rcases kv with ⟨k, v⟩
  cases v with
  | single q =>
    by_cases h : q.isOmitted = true
    · simp [appendParam, expandParam, h]
    · simp [appendParam, expandParam, h, URLSearchParams.append]
  | array vs =>
    simpa [appendParam, expandParam] using foldl_append_array_pairs k vs sp

lemma foldl_appendParam_pairs (params : List (String × ParamValue)) (sp : URLSearchParams) :
    (params.foldl appendParam sp).pairs = sp.pairs ++ expandParams params := by
  induction params generalizing sp with
  | nil => simp [expandParams]
  | cons kv rest ih =>
    simp only [List.foldl_cons, expandParams]
    rw [ih, appendParam_pairs, List.append_assoc]

lemma queryPairs_eq (params : List (String × ParamValue)) :
    queryPairs params = expandParams params := by
  simpa [queryPairs] using foldl_appendParam_pairs params (URLSearchParams.mk [])

/-- Claim C2: for every base path and mapping of optional scalar/array filter
values, `withQueryParams` omits keys whose value is `undefined`, `null`, or the
empty string, and emits array values as repeated key entries (one pair per kept
array element, in order); in particular
`withQueryParams "/x" (q := "", tag_ids := #["a","b"], page_num := 0)` equals
`"/x?tag_ids=a&tag_ids=b&page_num=0"`. -/
theorem withQueryParams_omits_empty_and_expands_arrays :
    (∀ params : List (String × ParamValue), queryPairs params = expandParams params) ∧
    (∀ k v, expandParam (k, ParamValue.single v) =
      if v = QueryValue.undefined ∨ v = QueryValue.null ∨ v = QueryValue.str "" then []
      else [(k, v.jsString)]) ∧
    (∀ k vs, expandParam (k, ParamValue.array vs) =
      (vs.filter (fun item => !item.isOmitted)).map (fun item => (k, item.jsString))) ∧
    withQueryParams "/x"
      [("q", ParamValue.single (QueryValue.str "")),
        ("tag_ids", ParamValue.array [QueryValue.str "a", QueryValue.str "b"]),
        ("page_num", ParamValue.single (QueryValue.num 0))] =
      "/x?tag_ids=a&tag_ids=b&page_num=0" := by
  refine ⟨queryPairs_eq, ?_, ?_, ?_⟩
  · intro k v
    cases v with
    | str s =>
      by_cases h : s = "" <;> simp [expandParam, QueryValue.isOmitted, h]
    | num n => simp [expandParam, QueryValue.isOmitted]
    | boolean b => simp [expandParam, QueryValue.isOmitted]
    | null => simp [expandParam, QueryValue.isOmitted]
    | undefined => simp [expandParam, QueryValue.isOmitted]
  · intro k vs
    simp [expandParam]
  · decide

/-- Claim C9: inside an array value, `withQueryParams` additionally omits the
individual elements that are `undefined`, `null`, or `""`, appending only the
remaining elements as repeated key entries; an array containing only such
elements contributes no query parameter at all. -/
theorem withQueryParams_filters_array_elements :
    (∀ k vs, queryPairs [(k, ParamValue.array vs)] =
      (vs.filter (fun item => !item.isOmitted)).map (fun item => (k, item.jsString))) ∧
    (∀ k vs, (∀ v ∈ vs, v.isOmitted = true) → queryPairs [(k, ParamValue.array vs)] = []) ∧
    withQueryParams "/x"
      [("tag_ids", ParamValue.array [QueryValue.str "", QueryValue.null, QueryValue.undefined])] =
      "/x" := by
  refine ⟨?_, ?_, ?_⟩
  · intro k vs
    simp [queryPairs_eq, expandParams, expandParam]
  · intro k vs h
    simp [queryPairs_eq, expandParams, expandParam, List.filter_eq_nil_iff]
    intro v hv
    simpa using h v hv
  · decide

/-- Witness for C9 at a concrete all-omitted array. -/
theorem withQueryParams_filters_array_elements_witness :
    queryPairs [("tag_ids", ParamValue.array [QueryValue.str "", QueryValue.null])] = [] :=
  withQueryParams_filters_array_elements.2.1 "tag_ids"
    [QueryValue.str "", QueryValue.null] (by decide)

/-! ## Transport helpers

`getJson`, `postJson` and `deleteJson` wrap `fetch`.  The network is modelled
as an oracle giving the response to the n-th fetch call together with a call
counter, so that the number of attempts a helper makes is observable.  A
response body is carried already parsed (the platform's `response.json()`). -/

structure HttpResponse (α : Type) where
  status : Nat
  body : α
deriving DecidableEq, Repr

/-- `Response.ok` of the fetch API: status in the inclusive range 200–299. -/
def HttpResponse.ok (r : HttpResponse α) : Bool :=
  decide (200 ≤ r.status) && decide (r.status ≤ 299)

structure Network (α : Type) where
  responses : Nat → HttpResponse α
  calls : Nat

/-- One `fetch` call: consume the next oracle response and bump the counter. -/
def fetchOnce (net : Network α) : HttpResponse α × Network α :=
  (net.responses net.calls, { net with calls := net.calls + 1 })

/-- `handleRequestError` from `crmService.ts`: the uniform error message. -/
def handleRequestError (action : String) (response : HttpResponse α) : String :=
  action ++ " failed (Status: " ++ toString response.status ++ ")"

/-- `getJson`: one fetch; non-ok status raises the uniform error, otherwise the
parsed body is returned. -/
def getJson (path : String) (action : String) (net : Network α) :
    Except String α × Network α :=
  let r := fetchOnce net
  if r.1.ok then (Except.ok r.1.body, r.2)
  else (Except.error (handleRequestError action r.1), r.2)

/-- `postJson`: one fetch with a JSON body and explicit method; identical
status handling to `getJson`. -/
def postJson (path : String) (body : β) (action : String) (method : String)
    (net : Network α) : Except String α × Network α :=
  let r := fetchOnce net
  if r.1.ok then (Except.ok r.1.body, r.2)
  else (Except.error (handleRequestError action r.1), r.2)

/-- `deleteJson` delegates to `postJson` with an empty object body and the
DELETE method. -/
def deleteJson (path : String) (action : String) (net : Network α) :
    Except String α × Network α :=
  postJson path () action "DELETE" net

/-- Claim C3: for every transport call with action name A, a non-2xx response
status makes the call throw an error whose message is exactly
`A ++ " failed (Status: " ++ code ++ ")"`, a 2xx status returns the parsed
body, and in either case exactly one fetch attempt is made. -/
theorem transport_error_message_and_single_attempt :
    ∀ (α : Type) (path action : String) (method : String) (body : Unit)
      (net : Network α),
      ((getJson path action net).2.calls = net.calls + 1 ∧
        (postJson path body action method net).2.calls = net.calls + 1 ∧
        (deleteJson path action net).2.calls = net.calls + 1) ∧
      (((net.responses net.calls).ok = true →
          (getJson path action net).1 = Except.ok (net.responses net.calls).body ∧
          (postJson path body action method net).1 =
            Except.ok (net.responses net.calls).body ∧
          (deleteJson path action net).1 = Except.ok (net.responses net.calls).body) ∧
        ((net.responses net.calls).ok = false →
          (getJson path action net).1 =
            Except.error
              (action ++ " failed (Status: " ++ toString (net.responses net.calls).status ++ ")") ∧
          (postJson path body action method net).1 =
            Except.error
              (action ++ " failed (Status: " ++ toString (net.responses net.calls).status ++ ")") ∧
          (deleteJson path action net).1 =
            Except.error
              (action ++ " failed (Status: " ++ toString (net.responses net.calls).status ++ ")"))) := by
  intro α path action method body net
  refine ⟨⟨?_, ?_, ?_⟩, ?_, ?_⟩
  · by_cases hr : (net.responses net.calls).ok = true <;> simp [getJson, fetchOnce, hr]
  · by_cases hr : (net.responses net.calls).ok = true <;> simp [postJson, fetchOnce, hr]
  · by_cases hr : (net.responses net.calls).ok = true <;>
      simp [deleteJson, postJson, fetchOnce, hr]
  · intro hok
    simp [getJson, postJson, deleteJson, fetchOnce, hok]
  · intro hbad
    simp [getJson, postJson, deleteJson, fetchOnce, hbad, handleRequestError]

/-- A concrete network whose every response is a 404 with body 0. -/
def net404 : Network Nat where
  responses := fun _ => { status := 404, body := 0 }
  calls := 0

/-- Witness for C3: on a 404 response, `getJson` returns the exact message and
has made exactly one fetch call. -/
theorem transport_error_message_and_single_attempt_witness :
    (getJson "/api/user/crm/tags" "Fetch CRM tags" net404).1 =
      Except.error "Fetch CRM tags failed (Status: 404)" ∧
    (getJson "/api/user/crm/tags" "Fetch CRM tags" net404).2.calls = 1 := by
  have h := transport_error_message_and_single_attempt Nat "/api/user/crm/tags"
    "Fetch CRM tags" "POST" () net404
  exact ⟨(h.2.2 (by decide)).1, h.1.1⟩

/-! ## Domain service path construction

Each list/search service function builds its request path through
`withQueryParams`, defaulting `page_num` to 0 and `page_size` to 25 via `??`
when the caller omits them.  Optional TS arguments are `Option`s here; an
absent argument is the JS value `undefined`. -/

def optStr : Option String → QueryValue
  | some s => QueryValue.str s
  | none => QueryValue.undefined

def optStrArray : Option (List String) → ParamValue
  | some l => ParamValue.array (l.map QueryValue.str)
  | none => ParamValue.single QueryValue.undefined

def searchCrmEntitiesParams (q : Option String) (entity_types : Option (List String))
    (page_num page_size : Option Int) : List (String × ParamValue) :=
  [("q", ParamValue.single (optStr q)),
    ("entity_types", optStrArray entity_types),
    ("page_num", ParamValue.single (QueryValue.num (page_num.getD 0))),
    ("page_size", ParamValue.single (QueryValue.num (page_size.getD 25)))]

def searchCrmEntitiesPath (q : Option String) (entity_types : Option (List String))
    (page_num page_size : Option Int) : String :=
  withQueryParams "/api/user/crm/search"
    (searchCrmEntitiesParams q entity_types page_num page_size)

def listCrmContactsParams (q status organization_id : Option String)
    (tag_ids : Option (List String)) (page_num page_size : Option Int) :
    List (String × ParamValue) :=
  [("q", ParamValue.single (optStr q)),
    ("status", ParamValue.single (optStr status)),
    ("organization_id", ParamValue.single (optStr organization_id)),
    ("tag_ids", optStrArray tag_ids),
    ("page_num", ParamValue.single (QueryValue.num (page_num.getD 0))),
    ("page_size", ParamValue.single (QueryValue.num (page_size.getD 25)))]

def listCrmContactsPath (q status organization_id : Option String)
    (tag_ids : Option (List String)) (page_num page_size : Option Int) : String :=
  withQueryParams "/api/user/crm/contacts"
    (listCrmContactsParams q status organization_id tag_ids page_num page_size)

def listCrmOrganizationsParams (q : Option String) (tag_ids : Option (List String))
    (page_num page_size : Option Int) : List (String × ParamValue) :=
  [("q", ParamValue.single (optStr q)),
    ("tag_ids", optStrArray tag_ids),
    ("page_num", ParamValue.single (QueryValue.num (page_num.getD 0))),
    ("page_size", ParamValue.single (QueryValue.num (page_size.getD 25)))]

def listCrmOrganizationsPath (q : Option String) (tag_ids : Option (List String))
    (page_num page_size : Option Int) : String :=
  withQueryParams "/api/user/crm/organizations"
    (listCrmOrganizationsParams q tag_ids page_num page_size)

def listCrmInteractionsParams (contact_id organization_id : Option String)
    (page_num page_size : Option Int) : List (String × ParamValue) :=
  [("contact_id", ParamValue.single (optStr contact_id)),
    ("organization_id", ParamValue.single (optStr organization_id)),
    ("page_num", ParamValue.single (QueryValue.num (page_num.getD 0))),
    ("page_size", ParamValue.single (QueryValue.num (page_size.getD 25)))]

def listCrmInteractionsPath (contact_id organization_id : Option String)
    (page_num page_size : Option Int) : String :=
  withQueryParams "/api/user/crm/interactions"
    (listCrmInteractionsParams contact_id organization_id page_num page_size)

def listCrmTagsParams (q : Option String) (page_num page_size : Option Int) :
    List (String × ParamValue) :=
  [("q", ParamValue.single (optStr q)),
    ("page_num", ParamValue.single (QueryValue.num (page_num.getD 0))),
    ("page_size", ParamValue.single (QueryValue.num (page_size.getD 25)))]

def listCrmTagsPath (q : Option String) (page_num page_size : Option Int) : String :=
  withQueryParams "/api/user/crm/tags" (listCrmTagsParams q page_num page_size)

/-- Claim C5: for all five list/search service functions, when the caller
omits `page_num` or `page_size` the emitted query pairs contain
`page_num=0` and `page_size=25`; concretely, listing contacts with no
arguments emits exactly those two parameters. -/
theorem list_services_default_pagination :
    (∀ q status organization_id tag_ids,
      ("page_num", "0") ∈ queryPairs (listCrmContactsParams q status organization_id tag_ids none none) ∧
      ("page_size", "25") ∈ queryPairs (listCrmContactsParams q status organization_id tag_ids none none)) ∧
    (∀ q tag_ids,
      ("page_num", "0") ∈ queryPairs (listCrmOrganizationsParams q tag_ids none none) ∧
      ("page_size", "25") ∈ queryPairs (listCrmOrganizationsParams q tag_ids none none)) ∧
    (∀ contact_id organization_id,
      ("page_num", "0") ∈ queryPairs (listCrmInteractionsParams contact_id organization_id none none) ∧
      ("page_size", "25") ∈ queryPairs (listCrmInteractionsParams contact_id organization_id none none)) ∧
    (∀ q,
      ("page_num", "0") ∈ queryPairs (listCrmTagsParams q none none) ∧
      ("page_size", "25") ∈ queryPairs (listCrmTagsParams q none none)) ∧
    (∀ q entity_types,
      ("page_num", "0") ∈ queryPairs (searchCrmEntitiesParams q entity_types none none) ∧
      ("page_size", "25") ∈ queryPairs (searchCrmEntitiesParams q entity_types none none)) ∧
    listCrmContactsPath none none none none none none =
      "/api/user/crm/contacts?page_num=0&page_size=25" := by
  have h0 : toString (0 : Int) = "0" := rfl
  have h25 : toString (25 : Int) = "25" := rfl
  refine ⟨?_, ?_, ?_, ?_, ?_, ?_⟩
  · intro q status organization_id tag_ids
    cases tag_ids <;> constructor <;>
      simp [queryPairs_eq, listCrmContactsParams, expandParams, expandParam,
        optStr, optStrArray, QueryValue.isOmitted, QueryValue.jsString, h0, h25]
  · intro q tag_ids
    cases tag_ids <;> constructor <;>
      simp [queryPairs_eq, listCrmOrganizationsParams, expandParams, expandParam,
        optStr, optStrArray, QueryValue.isOmitted, QueryValue.jsString, h0, h25]
  · intro contact_id organization_id
    constructor <;>
      simp [queryPairs_eq, listCrmInteractionsParams, expandParams, expandParam,
        optStr, optStrArray, QueryValue.isOmitted, QueryValue.jsString, h0, h25]
  · intro q
    constructor <;>
      simp [queryPairs_eq, listCrmTagsParams, expandParams, expandParam,
        optStr, optStrArray, QueryValue.isOmitted, QueryValue.jsString, h0, h25]
  · intro q entity_types
    cases entity_types <;> constructor <;>
      simp [queryPairs_eq, searchCrmEntitiesParams, expandParams, expandParam,
        optStr, optStrArray, QueryValue.isOmitted, QueryValue.jsString, h0, h25]
  · decide

/-! ## Admin settings form: CRM settings save

`handleSaveCrmSettings` parses the two textareas with `parseMultiLineValues`,
validates that at least one stage remains, then awaits `patchCrmSettings` and
only on success overwrites the textarea state with the server's response.  The
model returns the component state while the request is in flight and after it
settles, plus the user-visible outcome. -/

/-- Whitespace as recognised by JavaScript `trim()` on the characters that
occur in this module (space, tab, newline, carriage return). -/
def isJsWhitespace (c : Char) : Bool :=
  c = ' ' || c = '\t' || c = '\n' || c = '\r'

def trimChars (l : List Char) : List Char :=
  ((l.dropWhile isJsWhitespace).reverse.dropWhile isJsWhitespace).reverse

/-- JavaScript `s.trim()`. -/
def jsTrim (s : String) : String :=
  String.mk (trimChars s.data)

def lowerChar (c : Char) : Char :=
  if 'A' ≤ c ∧ c ≤ 'Z' then Char.ofNat (c.toNat + 32) else c

/-- JavaScript `s.toLowerCase()` (ASCII case folding, which covers every use
in this module). -/
def jsToLower (s : String) : String :=
  String.mk (s.data.map lowerChar)

def splitLinesChars : List Char → List (List Char)
  | [] => [[]]
  | c :: rest =>
    if c = '\n' then [] :: splitLinesChars rest
    else
      match splitLinesChars rest with
      | [] => [[c]]
      | line :: more => (c :: line) :: more

/-- JavaScript `s.split(/\r?\n/)`: split on newlines; a carriage return before
the newline is removed by the subsequent `trim()`, so splitting on `"\n"` is
the faithful composite model. -/
def jsSplitLines (s : String) : List String :=
  (splitLinesChars s.data).map String.mk

/-- `parseMultiLineValues` from the settings form: split on line breaks, trim,
drop blanks, optionally lower-case, and deduplicate case-insensitively keeping
first occurrences. -/
def parseMultiLineValues (rawValue : String) (lowerCase : Bool) : List String :=
  let normalizedLines := ((jsSplitLines rawValue).map jsTrim).filter (fun l => l ≠ "")
  (normalizedLines.foldl
    (fun (acc : List String × List String) value =>
      let normalizedValue := if lowerCase then jsToLower value else value
      let dedupeKey := jsToLower normalizedValue
      if acc.2.contains dedupeKey then acc
      else (acc.1 ++ [normalizedValue], acc.2 ++ [dedupeKey]))
    ([], [])).1

/-- The CRM settings payload returned by `patchCrmSettings`; list fields are
optional to mirror the `x || []` guards in the component. -/
structure CrmSettingsPayload where
  contact_stage_options : Option (List String)
  contact_category_suggestions : Option (List String)
deriving DecidableEq, Repr

/-- The local state of the CRM section of `SettingsForm` that
`handleSaveCrmSettings` can touch. -/
structure CrmSettingsFormState where
  crmStageOptionsRaw : String
  crmCategorySuggestionsRaw : String
  crmSaveInProgress : Bool
deriving DecidableEq, Repr

inductive CrmSaveOutcome where
  | validationToast (message : String)
  | successToast
  | failureToast
deriving DecidableEq, Repr

/-- The patch `handleSaveCrmSettings` submits to `patchCrmSettings`:
the parsed stage options (lower-cased) and category suggestions. -/
def crmSettingsPatch (st : CrmSettingsFormState) : List String × List String :=
  (parseMultiLineValues st.crmStageOptionsRaw true,
    parseMultiLineValues st.crmCategorySuggestionsRaw false)

/-- `handleSaveCrmSettings`: returns the state while `patchCrmSettings` is in
flight, the state after it settles, and the toast outcome.  `result` is how
the `patchCrmSettings` promise settles. -/
def handleSaveCrmSettings (st : CrmSettingsFormState)
    (result : Except Unit CrmSettingsPayload) :
    CrmSettingsFormState × CrmSettingsFormState × CrmSaveOutcome :=
  let parsedStageOptions := parseMultiLineValues st.crmStageOptionsRaw true
  if parsedStageOptions.length = 0 then
    (st, st, CrmSaveOutcome.validationToast "CRM stages must include at least one value.")
  else
    let inFlight := { st with crmSaveInProgress := true }
    match result with
    | Except.ok updatedCrmSettings =>
      (inFlight,
        { crmStageOptionsRaw :=
            String.intercalate "\n" (updatedCrmSettings.contact_stage_options.getD []),
          crmCategorySuggestionsRaw :=
            String.intercalate "\n" (updatedCrmSettings.contact_category_suggestions.getD []),
          crmSaveInProgress := false },
        CrmSaveOutcome.successToast)
    | Except.error _ =>
      (inFlight, { inFlight with crmSaveInProgress := false }, CrmSaveOutcome.failureToast)

/-- A pre-submit state whose stage textarea differs from the patch that would
be sent (mixed case, so parsing lower-cases it). -/
def crmFormStateCounterexample : CrmSettingsFormState :=
  { crmStageOptionsRaw := "Lead\nWon", crmCategorySuggestionsRaw := "", crmSaveInProgress := false }

/-- Counterexample to claim C1 as stated: at `crmFormStateCounterexample` the
state visible while the `patchCrmSettings` call is in flight still shows the
raw pre-submit text, not the patch (`["lead","won"]`) merged in — no
optimistic merge of the patch is applied to local state before the network
call resolves. -/
theorem crm_settings_save_no_optimistic_merge :
    (handleSaveCrmSettings crmFormStateCounterexample (Except.error ())).1.crmStageOptionsRaw =
        "Lead\nWon" ∧
      (crmSettingsPatch crmFormStateCounterexample).1 = ["lead", "won"] ∧
      "Lead\nWon" ≠
        String.intercalate "\n" (crmSettingsPatch crmFormStateCounterexample).1 := by
  refine ⟨?_, ?_, ?_⟩ <;> decide

/-- Claim C1 amended: for every rejection of `patchCrmSettings` triggered by
the settings form's save action, the form's visible settings state equals its
pre-submit value — not because a pre-patch snapshot is restored, but because
no optimistic merge is applied at all: the textarea state is only overwritten
after a successful response, so on failure it was never changed. -/
theorem crm_settings_save_failure_keeps_presubmit_state :
    ∀ st : CrmSettingsFormState,
      parseMultiLineValues st.crmStageOptionsRaw true ≠ [] →
      ((handleSaveCrmSettings st (Except.error ())).1.crmStageOptionsRaw =
          st.crmStageOptionsRaw ∧
        (handleSaveCrmSettings st (Except.error ())).1.crmCategorySuggestionsRaw =
          st.crmCategorySuggestionsRaw) ∧
      ((handleSaveCrmSettings st (Except.error ())).2.1.crmStageOptionsRaw =
          st.crmStageOptionsRaw ∧
        (handleSaveCrmSettings st (Except.error ())).2.1.crmCategorySuggestionsRaw =
          st.crmCategorySuggestionsRaw ∧
        (handleSaveCrmSettings st (Except.error ())).2.1.crmSaveInProgress = false) := by
  intro st hstages
  have h : ¬ (parseMultiLineValues st.crmStageOptionsRaw true).length = 0 := by
    simpa [List.length_eq_zero] using hstages
  simp [handleSaveCrmSettings, h]

/-- Witness for C1's amended theorem: a failed save at the concrete mixed-case
state leaves both textareas at their pre-submit values. -/
theorem crm_settings_save_failure_keeps_presubmit_state_witness :
    (handleSaveCrmSettings crmFormStateCounterexample (Except.error ())).2.1.crmStageOptionsRaw =
        "Lead\nWon" ∧
      (handleSaveCrmSettings crmFormStateCounterexample
          (Except.error ())).2.1.crmCategorySuggestionsRaw = "" :=
  ⟨(crm_settings_save_failure_keeps_presubmit_state crmFormStateCounterexample
      (by decide)).2.1,
    (crm_settings_save_failure_keeps_presubmit_state crmFormStateCounterexample
      (by decide)).2.2.1⟩

/-! ## Admin settings form: workspace settings optimistic update

`updateSettingField` merges the update requests into the current settings via
`newValue ?? settings[fieldName]`, shows that merged object optimistically,
sends exactly that merged object as the PUT body, and restores the snapshot
on failure.  JS objects are modelled as ordered association lists of
`JsValue`s. -/

inductive JsValue where
  | undefined
  | null
  | num (n : Int)
  | str (s : String)
  | boolean (b : Bool)
deriving DecidableEq, Repr

abbrev SettingsObj := List (String × JsValue)

/-- Property read `settings[fieldName]`; absent keys are `undefined`. -/
def getField : SettingsObj → String → JsValue
  | [], _ => JsValue.undefined
  | (k, v) :: rest, f => if k = f then v else getField rest f

/-- Property write `acc[fieldName] = v` on a JS object. -/
def setField (o : SettingsObj) (f : String) (v : JsValue) : SettingsObj :=
  if o.any (fun p => p.1 = f) then
    o.map (fun p => if p.1 = f then (f, v) else p)
  else o ++ [(f, v)]

/-- The `??` operator of JavaScript. -/
def nullishCoalesce (a b : JsValue) : JsValue :=
  match a with
  | JsValue.null => b
  | JsValue.undefined => b
  | v => v

/-- The merge inside `updateSettingField`: reduce the update requests into an
accumulator object with `acc[fieldName] = newValue ?? settings[fieldName]`,
then spread it over the current settings. -/
def mergeUpdates (settings : SettingsObj) (updateRequests : List (String × JsValue)) :
    SettingsObj :=
  let acc := updateRequests.foldl
    (fun acc fv => setField acc fv.1 (nullishCoalesce fv.2 (getField settings fv.1))) []
  acc.foldl (fun o fv => setField o fv.1 fv.2) settings

/-- `updateSettingField`: the optimistic local state shown before the request
resolves, the exact object serialized as the PUT request body, and the final
state (snapshot restored when the request fails). -/
def updateSettingField (settings : SettingsObj) (updateRequests : List (String × JsValue))
    (requestFails : Bool) : SettingsObj × SettingsObj × SettingsObj :=
  let newSettings := mergeUpdates settings updateRequests
  (newSettings, newSettings, if requestFails then settings else newSettings)

lemma getField_map_set (o : SettingsObj) (f : String) (v : JsValue)
    (h : o.any (fun p => p.1 = f) = true) :
    getField (o.map (fun p => if p.1 = f then (f, v) else p)) f = v := by
  induction o with
  | nil => simp at h
  | cons head tail ih =>
    rcases head with ⟨k, w⟩
    by_cases hh : k = f
    · have hmap : ((k, w) :: tail).map (fun p => if p.1 = f then (f, v) else p) =
          (f, v) :: tail.map (fun p => if p.1 = f then (f, v) else p) := by
        simp [if_pos hh]
      rw [hmap]
      simp [getField]
    · have ht : tail.any (fun p => p.1 = f) = true := by
        simpa [List.any_cons, hh] using h
      have hmap : ((k, w) :: tail).map (fun p => if p.1 = f then (f, v) else p) =
          (k, w) :: tail.map (fun p => if p.1 = f then (f, v) else p) := by
        simp [if_neg hh]
      rw [hmap]
      simpa [getField, if_neg hh] using ih ht

lemma getField_append_single (o : SettingsObj) (f : String) (v : JsValue)
    (h : o.any (fun p => p.1 = f) = false) :
    getField (o ++ [(f, v)]) f = v := by
  induction o with
  | nil => simp [getField]
  | cons head tail ih =>
    rcases head with ⟨k, w⟩
    have hp : ¬ k = f := by
      intro hc
      simp [List.any_cons, hc] at h
    have ht : tail.any (fun p => p.1 = f) = false := by
      simp only [List.any_cons, Bool.or_eq_false_iff, decide_eq_false_iff_not] at h
      exact h.2
    simpa [getField, if_neg hp] using ih ht

lemma getField_setField (o : SettingsObj) (f : String) (v : JsValue) :
    getField (setField o f v) f = v := by
  by_cases h : o.any (fun p => p.1 = f) = true
  · simpa [setField, h] using getField_map_set o f v h
  · have hf : o.any (fun p => p.1 = f) = false := by
      simp only [Bool.not_eq_true] at h
      exact h
    simpa [setField, hf] using getField_append_single o f v hf

/-- The concrete workspace settings of the C10 scenario: a retention limit of
30 days is configured. -/
def settingsWithRetention : SettingsObj :=
  [("maximum_chat_retention_days", JsValue.num 30)]

/-- Counterexample to claim C10 as stated: clearing
`maximum_chat_retention_days` to null does retain the previous value in the
optimistic state, but the request body is the merged `newSettings` object, so
the server receives the previous value 30, not null. -/
theorem update_setting_field_body_not_null :
    getField
        (updateSettingField settingsWithRetention
          [("maximum_chat_retention_days", JsValue.null)] false).2.1
        "maximum_chat_retention_days" = JsValue.num 30 ∧
      JsValue.num 30 ≠ JsValue.null := by
  constructor <;> decide

/-- Claim C10 amended: in `updateSettingField`, an update request whose
`newValue` is null or undefined is not applied: the merge computes
`newValue ?? settings[fieldName]`, so the previous field value is retained in
the displayed optimistic state — and, since the merged object itself is
serialized as the request body, the previous value (not null) is what is sent
to the server. -/
theorem update_setting_field_nullish_keeps_previous :
    ∀ (settings : SettingsObj) (f : String) (v : JsValue) (requestFails : Bool),
      (v = JsValue.null ∨ v = JsValue.undefined) →
      getField (updateSettingField settings [(f, v)] requestFails).1 f =
          getField settings f ∧
        getField (updateSettingField settings [(f, v)] requestFails).2.1 f =
          getField settings f := by
  intro settings f v requestFails hv
  have hmerge : mergeUpdates settings [(f, v)] = setField settings f (getField settings f) := by
    rcases hv with hv | hv <;> subst hv <;> rfl
  constructor <;>
    simp [updateSettingField, hmerge, getField_setField]

/-- Witness for C10's amended theorem at the concrete retention scenario. -/
theorem update_setting_field_nullish_keeps_previous_witness :
    getField
        (updateSettingField settingsWithRetention
          [("maximum_chat_retention_days", JsValue.null)] true).1
        "maximum_chat_retention_days" =
      getField settingsWithRetention "maximum_chat_retention_days" :=
  (update_setting_field_nullish_keeps_previous settingsWithRetention
    "maximum_chat_retention_days" JsValue.null true (Or.inl rfl)).1

/-! ## Tag manager

`TagManager` offers a create-new-tag row exactly when `canCreateNew` holds,
and `handleCreateAndAddTag` creates the tag and immediately attaches it.  The
service calls a run of the handler issues are recorded as a trace. -/

structure CrmTag where
  id : String
  name : String
deriving DecidableEq, Repr

/-- `canCreateNew` from `TagManager`: the trimmed search text is non-empty and
no loaded tag has a case-insensitively equal name. -/
def canCreateNew (allTags : List CrmTag) (tagSearch : String) : Bool :=
  decide (0 < (jsTrim tagSearch).length) &&
    !(allTags.any (fun tag => jsToLower tag.name == jsToLower (jsTrim tagSearch)))

inductive TagManagerAction where
  | createTag (name : String)
  | attachTag (entityId tagId : String)
  | refreshEntity
  | fetchTags
deriving DecidableEq, Repr

/-- `handleCreateAndAddTag`: guarded by `canCreateNew` and the `isCreating`
latch; creates the tag, then `handleAddTag` attaches it (refreshing the entity
on success and swallowing failures), then the tag list is refetched.  The
returned trace lists the service calls in order; `createResult` and
`attachSucceeds` are how the network settles each call. -/
def handleCreateAndAddTag (allTags : List CrmTag) (tagSearch : String)
    (isCreating : Bool) (entityId : String) (createResult : Except Unit CrmTag)
    (attachSucceeds : Bool) : List TagManagerAction :=
  if !(canCreateNew allTags tagSearch) || isCreating then []
  else
    match createResult with
    | Except.error _ => [TagManagerAction.createTag (jsTrim tagSearch)]
    | Except.ok newTag =>
      [TagManagerAction.createTag (jsTrim tagSearch),
        TagManagerAction.attachTag entityId newTag.id] ++
      (if attachSucceeds then [TagManagerAction.refreshEntity] else []) ++
      [TagManagerAction.fetchTags]

lemma string_length_pos_iff (t : String) : 0 < t.length ↔ t ≠ "" := by
  rw [Nat.pos_iff_ne_zero]
  constructor
  · intro h hc
    subst hc
    exact h rfl
  · intro h hc
    apply h
    cases t with
    | mk data =>
      cases data with
      | nil => rfl
      | cons c cs => simp [String.length] at hc

/-- Claim C6: the create-new-tag action is offered exactly when the trimmed
search text is non-empty and no already-loaded tag has a case-insensitively
equal name; when taken, the handler first calls `createCrmTag` and the very
next service call attaches the newly created tag to the entity. -/
theorem tag_manager_create_condition_and_order :
    (∀ (allTags : List CrmTag) (tagSearch : String),
      canCreateNew allTags tagSearch = true ↔
        (jsTrim tagSearch ≠ "" ∧
          ∀ tag ∈ allTags, jsToLower tag.name ≠ jsToLower (jsTrim tagSearch))) ∧
    (∀ (allTags : List CrmTag) (tagSearch : String) (entityId : String)
        (newTag : CrmTag) (attachSucceeds : Bool),
      canCreateNew allTags tagSearch = true →
      (handleCreateAndAddTag allTags tagSearch false entityId
          (Except.ok newTag) attachSucceeds).take 2 =
        [TagManagerAction.createTag (jsTrim tagSearch),
          TagManagerAction.attachTag entityId newTag.id]) := by
  constructor
  · intro allTags tagSearch
    simp [canCreateNew, List.any_eq_true, string_length_pos_iff, beq_iff_eq]
  · intro allTags tagSearch entityId newTag attachSucceeds hcan
    cases attachSucceeds <;> simp [handleCreateAndAddTag, hcan]

/-- Witness for C6 at a concrete loaded tag list and search text. -/
theorem tag_manager_create_condition_and_order_witness :
    canCreateNew [CrmTag.mk "t1" "Press"] " Donors " = true ∧
    (handleCreateAndAddTag [CrmTag.mk "t1" "Press"] " Donors " false "c9"
        (Except.ok (CrmTag.mk "t2" "Donors")) true).take 2 =
      [TagManagerAction.createTag "Donors", TagManagerAction.attachTag "c9" "t2"] :=
  ⟨by decide,
    tag_manager_create_condition_and_order.2 [CrmTag.mk "t1" "Press"]
      " Donors " "c9" (CrmTag.mk "t2" "Donors") true (by decide)⟩

/-! ## Create contact modal

The modal's `onSubmit` builds the request body from the form values, calls
`createCrmContact`, and then either invokes the caller's callbacks (success)
or sets the form-local status message (failure). -/

/-- `optionalText` from the modal: trimmed non-empty text or `undefined`. -/
def optionalText (value : String) : Option String :=
  let normalized := jsTrim value
  if 0 < normalized.length then some normalized else none

structure ContactCreateValues where
  first_name : String
  last_name : String
  email : String
  phone : String
  title : String
  status : String
  source : String
  notes : String
  linkedin_url : String
  location : String
deriving DecidableEq, Repr

structure CreateContactBody where
  first_name : String
  last_name : Option String
  email : Option String
  phone : Option String
  title : Option String
  status : String
  source : Option String
  notes : Option String
  linkedin_url : Option String
  location : Option String
  organization_id : Option String
deriving DecidableEq, Repr

/-- The object literal passed to `createCrmContact` by the modal's onSubmit. -/
def buildCreateContactBody (values : ContactCreateValues)
    (organizationId : Option String) : CreateContactBody :=
  { first_name := jsTrim values.first_name,
    last_name := optionalText values.last_name,
    email := optionalText values.email,
    phone := optionalText values.phone,
    title := optionalText values.title,
    status := values.status,
    source := if values.source = "" then none else some values.source,
    notes := optionalText values.notes,
    linkedin_url := optionalText values.linkedin_url,
    location := optionalText values.location,
    organization_id := organizationId }

inductive ModalEffect where
  | callCreateContact (body : CreateContactBody)
  | invokeOnSuccess
  | invokeOnOpenChange (value : Bool)
  | setStatusMessage (message : String)
deriving DecidableEq, Repr

/-- The create-contact modal's `onSubmit`: the service call, then on success
`onSuccess()` and `onOpenChange(false)`, on failure only
`setStatus("Failed to create contact.")`. -/
def createContactOnSubmit (values : ContactCreateValues)
    (organizationId : Option String) (result : Except Unit Unit) : List ModalEffect :=
  let body := buildCreateContactBody values organizationId
  match result with
  | Except.ok _ =>
    [ModalEffect.callCreateContact body, ModalEffect.invokeOnSuccess,
      ModalEffect.invokeOnOpenChange false]
  | Except.error _ =>
    [ModalEffect.callCreateContact body,
      ModalEffect.setStatusMessage "Failed to create contact."]

/-- Claim C7: if the service call resolves, `onSuccess` is invoked and the
modal is closed via `onOpenChange false`; if it rejects, the form-local status
message is set and neither `onSuccess` nor any `onOpenChange` call happens, so
the modal stays open with the user's input intact. -/
theorem create_contact_modal_submit_effects :
    ∀ (values : ContactCreateValues) (organizationId : Option String),
      createContactOnSubmit values organizationId (Except.ok ()) =
        [ModalEffect.callCreateContact (buildCreateContactBody values organizationId),
          ModalEffect.invokeOnSuccess, ModalEffect.invokeOnOpenChange false] ∧
      (createContactOnSubmit values organizationId (Except.error ()) =
        [ModalEffect.callCreateContact (buildCreateContactBody values organizationId),
          ModalEffect.setStatusMessage "Failed to create contact."] ∧
        ModalEffect.invokeOnSuccess ∉
          createContactOnSubmit values organizationId (Except.error ()) ∧
        ∀ b, ModalEffect.invokeOnOpenChange b ∉
          createContactOnSubmit values organizationId (Except.error ())) := by
  intro values organizationId
  refine ⟨rfl, rfl, ?_, ?_⟩
  · simp [createContactOnSubmit]
  · intro b
    simp [createContactOnSubmit]

/-- Witness for C7 at a concrete set of form values. -/
theorem create_contact_modal_submit_effects_witness :
    createContactOnSubmit
        (ContactCreateValues.mk "Ada" "" "" "" "" "lead" "" "" "" "") none
        (Except.error ()) =
      [ModalEffect.callCreateContact
          (buildCreateContactBody
            (ContactCreateValues.mk "Ada" "" "" "" "" "lead" "" "" "" "") none),
        ModalEffect.setStatusMessage "Failed to create contact."] :=
  (create_contact_modal_submit_effects
    (ContactCreateValues.mk "Ada" "" "" "" "" "lead" "" "" "" "") none).2.1

/-! ## Backend contact store (spec-modelled)

The REST backend behind `createCrmContact`/`getCrmContact` is not part of the
provided source; the client functions are thin pass-throughs.  The store
below is modelled from the spec: contacts are created via the create-contact
call, a contact's status must be one of the tenant's configured
`contact_stage_options`, defaulting to the first configured option (or the
fixed default set whose first entry is `"lead"` when none are configured). -/

structure CrmServerContact where
  id : Nat
  first_name : String
  status : String
deriving DecidableEq, Repr

structure CrmCreateContactRequest where
  first_name : String
  status : Option String
deriving DecidableEq, Repr

structure CrmServerState where
  contact_stage_options : List String
  contacts : List CrmServerContact
  nextId : Nat
deriving DecidableEq, Repr

/-- Modelled from the spec: the POST `/api/user/crm/contacts` handler, which
is not under src/.  It stores the new contact, defaulting `status` to the
tenant's first configured stage option, or `"lead"` when no stage options are
configured. -/
def serverCreateContact (st : CrmServerState) (body : CrmCreateContactRequest) :
    CrmServerState × CrmServerContact :=
  let status :=
    match body.status with
    | some s => s
    | none =>
      match st.contact_stage_options with
      | [] => "lead"
      | s :: _ => s
  let contact : CrmServerContact := { id := st.nextId, first_name := body.first_name, status }
  ({ st with contacts := st.contacts ++ [contact], nextId := st.nextId + 1 }, contact)

/-- Modelled from the spec: the GET `/api/user/crm/contacts/:id` handler,
which is not under src/; returns the stored contact with the given id. -/
def serverGetContact (st : CrmServerState) (cid : Nat) : Option CrmServerContact :=
  st.contacts.find? (fun c => c.id = cid)

/-- Fresh-id invariant of the store: every stored contact's id is below
`nextId`. -/
def FreshIds (st : CrmServerState) : Prop :=
  ∀ c ∈ st.contacts, c.id < st.nextId

lemma find_append_fresh (contacts : List CrmServerContact) (c : CrmServerContact)
    (h : ∀ d ∈ contacts, d.id ≠ c.id) :
    (contacts ++ [c]).find? (fun d => d.id = c.id) = some c := by
  induction contacts with
  | nil => simp [List.find?]
  | cons head tail ih =>
    have hne : decide (head.id = c.id) = false := by
      simp [h head (by simp)]
    simp only [List.cons_append, List.find?, hne]
    exact ih (fun d hd => h d (by simp [hd]))

/-- Claim C4: creating a contact with only `first_name := "Ada"` and then
fetching it by id returns a contact whose `first_name` is `"Ada"` and whose
`status` is the tenant's first configured stage option, or `"lead"` when no
stage options are configured. -/
theorem create_contact_round_trip :
    ∀ st : CrmServerState, FreshIds st →
      serverGetContact
          (serverCreateContact st (CrmCreateContactRequest.mk "Ada" none)).1
          (serverCreateContact st (CrmCreateContactRequest.mk "Ada" none)).2.id =
        some (serverCreateContact st (CrmCreateContactRequest.mk "Ada" none)).2 ∧
      (serverCreateContact st (CrmCreateContactRequest.mk "Ada" none)).2.first_name = "Ada" ∧
      (serverCreateContact st (CrmCreateContactRequest.mk "Ada" none)).2.status =
        (match st.contact_stage_options with
          | [] => "lead"
          | s :: _ => s) := by
  intro st hfresh
  refine ⟨?_, rfl, rfl⟩
  simp only [serverCreateContact, serverGetContact]
  exact find_append_fresh st.contacts
    { id := st.nextId, first_name := "Ada",
      status :=
        match st.contact_stage_options with
        | [] => "lead"
        | s :: _ => s }
    (fun d hd => Nat.ne_of_lt (hfresh d hd))

/-- Witness for C4 at a concrete tenant with stage options
`["prospect", "won"]`. -/
theorem create_contact_round_trip_witness :
    (serverCreateContact
        (CrmServerState.mk ["prospect", "won"] [] 0)
        (CrmCreateContactRequest.mk "Ada" none)).2.first_name = "Ada" ∧
    (serverCreateContact
        (CrmServerState.mk ["prospect", "won"] [] 0)
        (CrmCreateContactRequest.mk "Ada" none)).2.status = "prospect" :=
  ⟨(create_contact_round_trip (CrmServerState.mk ["prospect", "won"] [] 0)
      (by intro c hc; simp at hc)).2.1,
    (create_contact_round_trip (CrmServerState.mk ["prospect", "won"] [] 0)
      (by intro c hc; simp at hc)).2.2⟩

/-! ## List page pagination

Both `CrmContactsPage` and `CrmOrganizationsPage` compute
`Math.max(1, Math.ceil(totalItems / PAGE_SIZE))` with `PAGE_SIZE = 25`; the
JavaScript number division followed by `Math.ceil` is modelled as the
rational ceiling.  The per-page item slice is the server's pagination
behaviour, modelled from the spec's invariant. -/

def PAGE_SIZE : Nat := 25

/-- `totalPages` from the contacts and organizations list pages. -/
def totalPages (totalItems : Nat) : Nat :=
  max 1 (Int.toNat ⌈(totalItems : ℚ) / (PAGE_SIZE : ℚ)⌉)

/-- Modelled from the spec: the backend's page slice, satisfying the
pagination invariant that a page holds
`min(page_size, total_items - page_num * page_size)` items. -/
def pageItems (allItems : List α) (page_num page_size : Nat) : List α :=
  (allItems.drop (page_num * page_size)).take page_size

lemma ceil_div_25 (n : Nat) : ⌈(n : ℚ) / (25 : ℚ)⌉ = ((n + 24) / 25 : ℕ) := by
  set k : ℕ := (n + 24) / 25 with hk
  have h1 : n ≤ 25 * k := by omega
  have h2 : 25 * k ≤ n + 24 := by omega
  have h1Q : (n : ℚ) ≤ 25 * (k : ℚ) := by exact_mod_cast h1
  have h2Q : 25 * (k : ℚ) ≤ (n : ℚ) + 24 := by exact_mod_cast h2
  rw [Int.ceil_eq_iff]
  constructor
  · rw [lt_div_iff (by norm_num : (0 : ℚ) < 25)]
    push_cast
    linarith
  · rw [div_le_iff (by norm_num : (0 : ℚ) < 25)]
    push_cast
    linarith

/-- Claim C8: the page count shown by the contacts and organizations list
pages equals the ceiling of `total_items / page_size` with a minimum of 1;
with `page_size = 25` and 30 total items there are 2 pages, page 0 holding 25
items and page 1 the remaining 5. -/
theorem list_pages_total_pages :
    (∀ n : Nat, totalPages n = max 1 ((n + PAGE_SIZE - 1) / PAGE_SIZE)) ∧
    totalPages 30 = 2 ∧
    (∀ (α : Type) (items : List α), items.length = 30 →
      (pageItems items 0 25).length = 25 ∧ (pageItems items 1 25).length = 5) := by
  refine ⟨?_, ?_, ?_⟩
  · intro n
    simp only [totalPages, PAGE_SIZE, Nat.cast_ofNat, ceil_div_25]
    omega
  · have h := ceil_div_25 30
    simp only [Nat.cast_ofNat] at h
    simp only [totalPages, PAGE_SIZE, Nat.cast_ofNat, h]
    omega
  · intro α items hlen
    constructor <;> simp [pageItems, hlen]

/-- Witness for C8 with the 30 natural numbers as the stored items. -/
theorem list_pages_total_pages_witness :
    (pageItems (List.range 30) 0 25).length = 25 ∧
      (pageItems (List.range 30) 1 25).length = 5 :=
  list_pages_total_pages.2.2 Nat (List.range 30) (by simp)

end CrmSpec
